import Mathlib

/-!
Verification of the mini-interaction library core: signature-gated request
dispatch, response-envelope helpers, message-data normalisation, option
resolution, handler registries and filesystem auto-discovery.

Each definition is a shallow embedding of the corresponding TypeScript
function; enum values (InteractionType, ApplicationCommandType,
InteractionResponseType, ComponentType, ApplicationCommandOptionType,
MessageFlags) carry the numeric values of discord-api-types v10.
-/

namespace Mini

/-! ## Component values and the message-data normaliser
(`src/utils/interactionMessageHelpers.ts`) -/

/-- A component-like value as the normaliser sees it: a non-object value, a plain
object with an optional numeric `type` field and an optional `components`
children array, or a builder object exposing a `toJSON` serialisation method
whose result is the wrapped payload.
-/
inductive ComponentLike where
  | nonObject : ComponentLike
  | obj (ctype : Option Nat) (children : Option (List ComponentLike)) : ComponentLike
  | builder (payload : ComponentLike) : ComponentLike
  deriving Repr

/-- Source `COMPONENTS_V2_TYPES`: Container 17, Section 9, TextDisplay 10,
MediaGallery 12, File 13, Separator 14, Thumbnail 11. -/
def COMPONENTS_V2_TYPES : List Nat := [17, 9, 10, 12, 13, 14, 11]

/-- Source `ComponentType.ActionRow` -/
def actionRowType : Nat := 1

/-- Source `MessageFlags.IsComponentsV2` (bit 15). -/
def IsComponentsV2 : Nat := 32768

/-- Source `resolveComponentLike`: unwrap one `toJSON` serialisation if present. -/
def resolveComponentLike : ComponentLike → ComponentLike
  | .builder payload => payload
  | c => c

mutual

/-- Source `containsComponentsV2`: some component in the array uses components v2. -/
def containsComponentsV2 : List ComponentLike → Bool
  | [] => false
  | c :: rest => componentUsesComponentsV2 c || containsComponentsV2 rest

/-- Source `componentUsesComponentsV2`, with the one-level `resolveComponentLike`
unwrap inlined into the patterns: after resolving a builder via `toJSON`, a
non-object or typeless value is not v2; a v2-typed value is; an action row
recurses into its children; everything else is not v2. -/
def componentUsesComponentsV2 : ComponentLike → Bool
  | .nonObject => false
  | .builder .nonObject => false
  | .builder (.builder _) => false
  | .builder (.obj none _) => false
  | .builder (.obj (some t) ch) =>
    if COMPONENTS_V2_TYPES.contains t then true
    else if t = actionRowType then
      match ch with
      | some rows => containsComponentsV2 rows
      | none => false
    else false
  | .obj none _ => false
  | .obj (some t) ch =>
    if COMPONENTS_V2_TYPES.contains t then true
    else if t = actionRowType then
      match ch with
      | some rows => containsComponentsV2 rows
      | none => false
    else false

end

/-- The `flags` field of a helper payload before normalisation: either a single
flag value or an array of flags.
-/
inductive FlagsInput where
  | single (f : Nat) : FlagsInput
  | many (fs : List Nat) : FlagsInput
  deriving Repr, DecidableEq

/-- Source `normaliseMessageFlags`: `undefined` stays `undefined`; an empty array
becomes `undefined`; a non-empty array reduces by bitwise OR from 0; a single
flag passes through. -/
def normaliseMessageFlags : Option FlagsInput → Option Nat
  | none => none
  | some (.many fs) =>
    if fs = [] then none
    else some (fs.foldl (fun acc f => acc ||| f) 0)
  | some (.single f) => some f

/-- A developer-authored helper message payload (`InteractionMessageData`). -/
structure MessageData where
  content : Option String := none
  components : Option (List ComponentLike) := none
  embeds : Option (List ComponentLike) := none
  flags : Option FlagsInput := none
  deriving Repr

/-- A wire-ready callback-data object (`APIInteractionResponseCallbackData`
restricted to the fields the helpers construct). -/
structure CallbackData where
  content : Option String := none
  components : Option (List ComponentLike) := none
  embeds : Option (List ComponentLike) := none
  flags : Option Nat := none
  deriving Repr

/-- Source `normaliseInteractionMessageData`: absent data yields `undefined`; otherwise
builders in `components` and `embeds` are converted via `toJSON`, flags are
normalised, and when any (converted) component uses components v2 the
`IsComponentsV2` bit is OR-ed into the final flags.
-/
def normaliseInteractionMessageData : Option MessageData → Option CallbackData
  | none => none
  | some data =>
    let normalisedComponents := data.components.map (List.map resolveComponentLike)
    let normalisedEmbeds := data.embeds.map (List.map resolveComponentLike)
    let usesComponentsV2 :=
      match normalisedComponents with
      | some cs => containsComponentsV2 cs
      | none => false
    let normalisedFlags := normaliseMessageFlags data.flags
    let finalFlags :=
      if usesComponentsV2 then some (normalisedFlags.getD 0 ||| IsComponentsV2)
      else normalisedFlags
    some { content := data.content
           components := normalisedComponents
           embeds := normalisedEmbeds
           flags := finalFlags }

/-! ## Response envelopes (`APIInteractionResponse`) -/

/-- The tagged union of interaction response envelopes, one constructor per
`InteractionResponseType` the library produces: Pong 1,
ChannelMessageWithSource 4, DeferredChannelMessageWithSource 5,
DeferredMessageUpdate 6, UpdateMessage 7, Modal 9. -/
inductive Envelope where
  | pong : Envelope
  | channelMessage (data : CallbackData) : Envelope
  | deferredChannelMessage (data : Option CallbackData) : Envelope
  | deferredMessageUpdate : Envelope
  | updateMessage (data : Option CallbackData) : Envelope
  | modal (customId : String) (title : String) : Envelope
  deriving Repr

/-! ## Component interaction sessions
(`createMessageComponentInteraction`, `src/utils/MessageComponentInteraction.ts`)

The wrapper closes over `capturedResponse` and `isDeferred`; the optional
`helpers` argument may supply `onAck` and `sendFollowUp` callbacks. We model
the presence of those callbacks as booleans and record their invocations as
effect logs (`acks`, `followUps`, the latter keyed by the follow-up message id
argument). -/

/-- Which optional helper callbacks were supplied to the wrapper factory. -/
structure ComponentHelpers where
  hasOnAck : Bool := false
  hasSendFollowUp : Bool := false
  deriving Repr, DecidableEq

/-- The dispatcher constructs component wrappers with no helpers
(`createMessageComponentInteraction(interaction)`). -/
def dispatchComponentHelpers : ComponentHelpers := {}

/-- Mutable state of one component interaction session plus effect logs. -/
structure ComponentSession where
  captured : Option Envelope := none
  isDeferred : Bool := false
  followUps : List (String × Envelope) := []
  acks : List Envelope := []
  deriving Repr

/-- Append an `onAck` notification when the callback was supplied. -/
def ackIfComponent (h : ComponentHelpers) (response : Envelope)
    (s : ComponentSession) : ComponentSession :=
  if h.hasOnAck then { s with acks := s.acks ++ [response] } else s

/-- Source `reply` on a component session: requires non-empty normalised data,
captures a ChannelMessageWithSource envelope, then either sends it as a
follow-up (when deferred and a sender exists) or acknowledges it. -/
def componentReply (h : ComponentHelpers) (s : ComponentSession)
    (data : Option MessageData) : Except String (Envelope × ComponentSession) :=
  match normaliseInteractionMessageData data with
  | none =>
    .error "[MiniInteraction] Component replies require response data to be provided."
  | some normalisedData =>
    let response := Envelope.channelMessage normalisedData
    let s1 := { s with captured := some response }
    if s.isDeferred && h.hasSendFollowUp then
      .ok (response, { s1 with followUps := s1.followUps ++ [("", response)] })
    else
      .ok (response, ackIfComponent h response s1)

/-- Source `deferReply` on a component session: captures a deferred envelope
(carrying normalised flags when defined) and sets the deferred bit. -/
def componentDeferReply (h : ComponentHelpers) (s : ComponentSession)
    (optionsFlags : Option FlagsInput) : Envelope × ComponentSession :=
  let flags := normaliseMessageFlags optionsFlags
  let response :=
    match flags with
    | some f => Envelope.deferredChannelMessage (some { flags := some f })
    | none => Envelope.deferredChannelMessage none
  (response,
    ackIfComponent h response { s with captured := some response, isDeferred := true })

/-- Source `update` on a component session: captures an UpdateMessage envelope, then
either sends it as a follow-up targeting the original message (when deferred
and a sender exists) or acknowledges it. -/
def componentUpdate (h : ComponentHelpers) (s : ComponentSession)
    (data : Option MessageData) : Envelope × ComponentSession :=
  let response :=
    match normaliseInteractionMessageData data with
    | some d => Envelope.updateMessage (some d)
    | none => Envelope.updateMessage none
  let s1 := { s with captured := some response }
  if s.isDeferred && h.hasSendFollowUp then
    (response, { s1 with followUps := s1.followUps ++ [("@original", response)] })
  else
    (response, ackIfComponent h response s1)

/-- Source `deferUpdate` on a component session. -/
def componentDeferUpdate (h : ComponentHelpers) (s : ComponentSession) :
    Envelope × ComponentSession :=
  let response := Envelope.deferredMessageUpdate
  (response,
    ackIfComponent h response { s with captured := some response, isDeferred := true })

/-! ## Command interaction sessions (`createCommandInteraction`,
`src/utils/CommandInteractionOptions.ts`)

The wrapper closes over `capturedResponse`, `isDeferred` and `hasResponded`;
optional helpers may supply `canRespond`, `trackResponse`, `onAck` and
`sendFollowUp`. `canRespond` is modelled by its verdict for this interaction
id when supplied. -/

/-- Which optional helper callbacks the command wrapper factory received
(`canRespond` modelled by its verdict at this interaction's id). -/
structure CommandHelpers where
  canRespond : Option Bool := none
  hasOnAck : Bool := false
  hasSendFollowUp : Bool := false
  deriving Repr, DecidableEq

/-- The dispatcher constructs command wrappers with no helpers
(`createCommandInteraction(commandInteraction)`). -/
def dispatchCommandHelpers : CommandHelpers := {}

/-- Mutable state of one command interaction session plus effect logs. -/
structure CommandSession where
  captured : Option Envelope := none
  isDeferred : Bool := false
  hasResponded : Bool := false
  followUps : List (String × Envelope) := []
  acks : List Envelope := []
  deriving Repr

/-- Append an `onAck` notification when the callback was supplied. -/
def ackIfCommand (h : CommandHelpers) (response : Envelope)
    (s : CommandSession) : CommandSession :=
  if h.hasOnAck then { s with acks := s.acks ++ [response] } else s

/-- Source `reply` on a command session: guarded by `canRespond`; requires data;
captures a ChannelMessageWithSource envelope; when deferred and a sender
exists it is delivered as a follow-up targeting the original message. -/
def commandReply (h : CommandHelpers) (s : CommandSession)
    (data : Option MessageData) : Except String (Envelope × CommandSession) :=
  if h.canRespond = some false then
    .error "Interaction cannot respond: already responded or expired"
  else
    match normaliseInteractionMessageData data with
    | none =>
      .error "[MiniInteraction] Channel message responses require data to be provided."
    | some normalisedData =>
      let response := Envelope.channelMessage normalisedData
      let s1 := { s with captured := some response }
      let s2 :=
        if s.isDeferred && h.hasSendFollowUp then
          { s1 with followUps := s1.followUps ++ [("@original", response)] }
        else ackIfCommand h response s1
      .ok (response, { s2 with hasResponded := true })

/-- Source `deferReply` on a command session: guarded by `canRespond`; captures a
DeferredChannelMessageWithSource envelope (with normalised flags when the
caller passed flags) and sets the deferred bit. -/
def commandDeferReply (h : CommandHelpers) (s : CommandSession)
    (optionsFlags : Option FlagsInput) : Except String (Envelope × CommandSession) :=
  if h.canRespond = some false then
    .error "Interaction cannot defer: already responded or expired"
  else
    let response :=
      match optionsFlags with
      | none => Envelope.deferredChannelMessage none
      | some fi =>
        Envelope.deferredChannelMessage (some { flags := normaliseMessageFlags (some fi) })
    .ok (response,
      ackIfCommand h response { s with captured := some response, isDeferred := true })

/-- Source `editReply` on a command session: guarded by `canRespond`; requires data;
builds a ChannelMessageWithSource response; when a follow-up sender exists and
the session is deferred or has responded, the response is sent as a follow-up
targeting the original message and the captured slot is left untouched;
otherwise the response is captured (overwriting the slot) and acknowledged. -/
def commandEditReply (h : CommandHelpers) (s : CommandSession)
    (data : Option MessageData) : Except String (Envelope × CommandSession) :=
  if h.canRespond = some false then
    .error "Interaction cannot edit reply: expired"
  else
    match normaliseInteractionMessageData data with
    | none => .error "[MiniInteraction] editReply requires data"
    | some normalizedData =>
      let response := Envelope.channelMessage normalizedData
      if h.hasSendFollowUp && (s.isDeferred || s.hasResponded) then
        .ok (response,
          { s with followUps := s.followUps ++ [("@original", response)]
                   hasResponded := true })
      else
        .ok (response,
          ackIfCommand h response
            { s with captured := some response, hasResponded := true })

/-! ## Dispatcher (`MiniInteraction.handleRequest` and the per-kind
`handleApplicationCommand` / `handleMessageComponent` / `handleModalSubmit`,
`src/clients/MiniInteraction.ts`)

A registered handler is modelled by its observable outcome for the incoming
interaction: it either throws, or finishes with an optional returned envelope
and an optional envelope captured through the wrapper's helper methods
(`getResponse()`). The dispatcher embedding additionally returns a trace that
records whether the body was JSON-parsed and how many handlers were invoked. -/

/-- Observable behaviour of one registered handler on one interaction. -/
inductive HandlerOutcome where
  | throws (msg : String) : HandlerOutcome
  | finished (returned : Option Envelope) (captured : Option Envelope) : HandlerOutcome
  deriving Repr

/-- Association-list lookup mirroring `Map.get`. -/
def mapGet : List (String × α) → String → Option α
  | [], _ => none
  | e :: rest, k => if e.1 = k then some e.2 else mapGet rest k

/-- Association-list update mirroring `Map.set`: overwrite the entry holding
the key, or append a new entry. -/
def mapSet : List (String × α) → String → α → List (String × α)
  | [], k, v => [(k, v)]
  | e :: rest, k, v =>
    if e.1 = k then (k, v) :: rest else e :: mapSet rest k v

/-- The registries of a `MiniInteraction` client, handlers abstracted by
their outcomes, plus the configured public key. -/
structure Client where
  publicKey : String := ""
  commands : List (String × HandlerOutcome) := []
  componentHandlers : List (String × HandlerOutcome) := []
  modalHandlers : List (String × HandlerOutcome) := []
  deriving Repr

/-- The kind-specific `data` of a parsed interaction: command name and
command subtype (`ApplicationCommandType`), or component/modal custom id. -/
structure InteractionData where
  name : Option String := none
  dataType : Option Nat := none
  custom_id : Option String := none
  deriving Repr, DecidableEq

/-- A parsed interaction: `type` is the `InteractionType` (Ping 1,
ApplicationCommand 2, MessageComponent 3, ModalSubmit 5). -/
structure Interaction where
  interactionType : Nat
  idata : Option InteractionData := none
  deriving Repr, DecidableEq

/-- A `{status, body}` result of request handling; the body is an envelope on
success and a single `error` string otherwise. -/
inductive ResultBody where
  | envelope (e : Envelope) : ResultBody
  | errorText (msg : String) : ResultBody
  deriving Repr

/-- Source `MiniInteractionHandlerResult`. -/
structure MiniResult where
  status : Nat
  body : ResultBody
  deriving Repr

/-- Source `handleApplicationCommand`: validate `data.name`, look up the command,
invoke its handler, coalesce the returned envelope with the wrapper-captured
one (for chat-input 1, user 2, and message 3 subtypes; unknown subtypes use
only the returned value), and produce 200/4xx/5xx. The second component
counts handler invocations. -/
def handleApplicationCommand (client : Client) (i : Interaction) :
    MiniResult × Nat :=
  let invalid : MiniResult × Nat :=
    (⟨400, .errorText "[MiniInteraction] Invalid application command interaction"⟩, 0)
  match i.idata with
  | none => invalid
  | some d =>
    match d.name with
    | none => invalid
    | some commandName =>
      if commandName = "" then invalid
      else
        match mapGet client.commands commandName with
        | none =>
          (⟨404, .errorText
            ("[MiniInteraction] No handler registered for \"" ++ commandName ++ "\"")⟩, 0)
        | some outcome =>
          match outcome with
          | .throws msg =>
            (⟨500, .errorText
              ("[MiniInteraction] Command \"" ++ commandName ++ "\" failed: " ++ msg)⟩, 1)
          | .finished returned captured =>
            let knownSubtype :=
              d.dataType = some 1 ∨ d.dataType = some 2 ∨ d.dataType = some 3
            let resolvedResponse :=
              if knownSubtype then returned.orElse (fun _ => captured) else returned
            match resolvedResponse with
            | none =>
              (⟨500, .errorText
                ("[MiniInteraction] Command \"" ++ commandName ++
                  "\" did not return a response. Call interaction.reply(), interaction.deferReply(), interaction.showModal(), or return an APIInteractionResponse.")⟩, 1)
            | some env => (⟨200, .envelope env⟩, 1)

/-- Source `handleMessageComponent`: validate `data.custom_id`, look up the
component handler, invoke it, coalesce returned and captured envelopes. -/
def handleMessageComponent (client : Client) (i : Interaction) :
    MiniResult × Nat :=
  let customId := (i.idata.bind (fun d => d.custom_id)).getD ""
  if customId = "" then
    (⟨400, .errorText
      "[MiniInteraction] Message component interaction is missing a custom_id"⟩, 0)
  else
    match mapGet client.componentHandlers customId with
    | none =>
      (⟨404, .errorText
        ("[MiniInteraction] No handler registered for component \"" ++ customId ++ "\"")⟩, 0)
    | some outcome =>
      match outcome with
      | .throws msg =>
        (⟨500, .errorText
          ("[MiniInteraction] Component \"" ++ customId ++ "\" failed: " ++ msg)⟩, 1)
      | .finished returned captured =>
        match returned.orElse (fun _ => captured) with
        | none =>
          (⟨500, .errorText
            ("[MiniInteraction] Component \"" ++ customId ++
              "\" did not return a response. Return an APIInteractionResponse to acknowledge the interaction.")⟩, 1)
        | some env => (⟨200, .envelope env⟩, 1)

/-- Source `handleModalSubmit`: validate `data.custom_id`, look up the modal
handler, invoke it, coalesce returned and captured envelopes. -/
def handleModalSubmit (client : Client) (i : Interaction) :
    MiniResult × Nat :=
  let customId := (i.idata.bind (fun d => d.custom_id)).getD ""
  if customId = "" then
    (⟨400, .errorText
      "[MiniInteraction] Modal submit interaction is missing a custom_id"⟩, 0)
  else
    match mapGet client.modalHandlers customId with
    | none =>
      (⟨404, .errorText
        ("[MiniInteraction] No handler registered for modal \"" ++ customId ++ "\"")⟩, 0)
    | some outcome =>
      match outcome with
      | .throws msg =>
        (⟨500, .errorText
          ("[MiniInteraction] Modal \"" ++ customId ++ "\" failed: " ++ msg)⟩, 1)
      | .finished returned captured =>
        match returned.orElse (fun _ => captured) with
        | none =>
          (⟨500, .errorText
            ("[MiniInteraction] Modal \"" ++ customId ++
              "\" did not return a response. Return an APIInteractionResponse to acknowledge the interaction.")⟩, 1)
        | some env => (⟨200, .envelope env⟩, 1)

/-- The request shape given to `handleRequest`: a body (already a UTF-8
string, as `normalizeBody` produces) and the two optional signature
headers. -/
structure MiniRequest where
  body : String
  signature : Option String := none
  timestamp : Option String := none
  deriving Repr, DecidableEq

/-- Effect trace of one `handleRequest` run: whether the braced body was
handed to `JSON.parse`, and how many registered handlers were invoked. -/
structure DispatchTrace where
  parsed : Bool
  handlerCalls : Nat
  deriving Repr, DecidableEq

/-- A missing header or an empty-string header fails the `!signature ||
!timestamp` presence test. -/
def headerMissing : Option String → Bool
  | none => true
  | some s => s = ""

/-- Source `handleRequest`: reject with 401 on missing headers, verify the
signature (rejecting with 401 on failure), then JSON-parse the body
(rejecting with 400 on failure) and classify by interaction type. `verify`
is the pluggable signature-verification function and `parse` the JSON
parser, both abstracted. -/
def handleRequest (verify : String → String → String → String → Bool)
    (parse : String → Option Interaction) (client : Client)
    (request : MiniRequest) : MiniResult × DispatchTrace :=
  if headerMissing request.signature || headerMissing request.timestamp then
    (⟨401, .errorText "[MiniInteraction] Missing signature headers"⟩,
      ⟨false, 0⟩)
  else
    let s := request.signature.getD ""
    let t := request.timestamp.getD ""
    if ¬ verify request.body s t client.publicKey then
      (⟨401, .errorText "[MiniInteraction] Signature verification failed"⟩,
        ⟨false, 0⟩)
    else
      match parse request.body with
      | none =>
        (⟨400, .errorText "[MiniInteraction] Invalid interaction payload"⟩,
          ⟨true, 0⟩)
      | some i =>
        if i.interactionType = 1 then (⟨200, .envelope .pong⟩, ⟨true, 0⟩)
        else if i.interactionType = 2 then
          let (r, calls) := handleApplicationCommand client i
          (r, ⟨true, calls⟩)
        else if i.interactionType = 3 then
          let (r, calls) := handleMessageComponent client i
          (r, ⟨true, calls⟩)
        else if i.interactionType = 5 then
          let (r, calls) := handleModalSubmit client i
          (r, ⟨true, calls⟩)
        else
          (⟨400, .errorText
            ("[MiniInteraction] Unsupported interaction type: " ++
              toString i.interactionType)⟩, ⟨true, 0⟩)

/-! ## Command auto-discovery guard (`ensureCommandsLoaded`,
`loadCommandsFromDirectory`, `src/clients/MiniInteraction.ts`)

`ensureCommandsLoaded` runs synchronously up to the `await`: if the loaded
flag is set (or no directory is configured) it returns; otherwise, when no
load promise is pending it starts `loadCommandsFromDirectory()` — whose first
step is the filesystem traversal — and stores the shared promise; every
caller then awaits that one promise. Completion registers the discovered
commands, sets the loaded flag, and clears the pending promise. We model
the synchronous prefix as a step producing an action, and completion as a
separate transition; `traversals` counts how many loads were ever started. -/

/-- Loader state of one client: the `commandsLoaded` guard, whether a load
promise is pending, how many directory loads were started, and the commands
registry. -/
structure LoaderState where
  commandsLoaded : Bool := false
  loadPending : Bool := false
  traversals : Nat := 0
  commands : List (String × Nat) := []
  deriving Repr, DecidableEq

/-- What one synchronous `ensureCommandsLoaded` call did. -/
inductive EnsureAction where
  | skipped : EnsureAction
  | startedLoad : EnsureAction
  | joinedPending : EnsureAction
  deriving Repr, DecidableEq

/-- Synchronous prefix of `ensureCommandsLoaded`: skip when loaded or no
directory is configured; otherwise start a load when none is pending, or
join the pending one. -/
def ensureCommandsLoadedStep (hasDirectory : Bool) (s : LoaderState) :
    LoaderState × EnsureAction :=
  if s.commandsLoaded || !hasDirectory then (s, .skipped)
  else if s.loadPending then (s, .joinedPending)
  else ({ s with loadPending := true, traversals := s.traversals + 1 },
    .startedLoad)

/-- Completion of a started `loadCommandsFromDirectory()`: each discovered
command is registered by name via `Map.set`, the loaded flag is set, and the
pending promise is cleared. -/
def finishLoad (files : List (String × Nat)) (s : LoaderState) : LoaderState :=
  { s with
    commands := files.foldl (fun acc f => mapSet acc f.1 f.2) s.commands
    commandsLoaded := true
    loadPending := false }

/-! ## Option Resolver (`CommandInteractionOptionResolver`,
`src/utils/CommandInteractionOptions.ts`) -/

/-- The value carried by a basic (leaf) interaction option: a string, a
number, a boolean, or a snowflake id referencing a resolved entity. -/
inductive OptValue where
  | vstr (s : String) : OptValue
  | vint (n : Int) : OptValue
  | vbool (b : Bool) : OptValue
  | vid (snowflake : String) : OptValue
  deriving Repr, DecidableEq

/-- The snowflake string of an option value (entity options carry ids). -/
def OptValue.asId : OptValue → String
  | .vid s => s
  | .vstr s => s
  | _ => ""

/-- One raw interaction option: name, declared `ApplicationCommandOptionType`
(Subcommand 1, SubcommandGroup 2, String 3, Integer 4, Boolean 5, User 6,
Channel 7, Role 8, Mentionable 9, Number 10, Attachment 11), value, and —
for subcommands and groups — nested options. -/
inductive RawOption where
  | mk (name : String) (otype : Nat) (value : Option OptValue)
      (options : Option (List RawOption)) : RawOption
  deriving Repr

/-- Field accessor: option name. -/
def RawOption.name : RawOption → String
  | .mk n _ _ _ => n

/-- Field accessor: declared option type. -/
def RawOption.otype : RawOption → Nat
  | .mk _ t _ _ => t

/-- Field accessor: option value. -/
def RawOption.value : RawOption → Option OptValue
  | .mk _ _ v _ => v

/-- Field accessor: nested options. -/
def RawOption.options : RawOption → Option (List RawOption)
  | .mk _ _ _ o => o

/-- Source `OPTION_TYPE_LABEL`: human-readable labels for error messages. -/
def OPTION_TYPE_LABEL (t : Nat) : String :=
  if t = 1 then "subcommand"
  else if t = 2 then "subcommand group"
  else if t = 3 then "string"
  else if t = 4 then "integer"
  else if t = 5 then "boolean"
  else if t = 6 then "user"
  else if t = 7 then "channel"
  else if t = 8 then "role"
  else if t = 9 then "mentionable"
  else if t = 10 then "number"
  else if t = 11 then "attachment"
  else "undefined"

/-- Result of `resolveFocusedOptions`. -/
structure FocusedOptionsResult where
  subcommandGroup : Option String := none
  subcommand : Option String := none
  options : List RawOption := []
  deriving Repr

/-- Source `resolveFocusedOptions`: collapse the (group → subcommand → options)
nesting to the single active path's leaf options. -/
def resolveFocusedOptions : Option (List RawOption) → FocusedOptionsResult
  | none => {}
  | some [] => {}
  | some (firstOption :: rest) =>
    if firstOption.otype = 2 then
      match firstOption.options.getD [] with
      | [] => { subcommandGroup := some firstOption.name }
      | firstSubcommand :: _ =>
        if firstSubcommand.otype = 1 then
          { subcommandGroup := some firstOption.name
            subcommand := some firstSubcommand.name
            options := firstSubcommand.options.getD [] }
        else { subcommandGroup := some firstOption.name }
    else if firstOption.otype = 1 then
      { subcommand := some firstOption.name
        options := firstOption.options.getD [] }
    else { options := firstOption :: rest }

/-- The resolved entity maps attached to a command interaction, entity
objects abstracted by numeric surrogates. -/
structure ResolvedData where
  users : List (String × Nat) := []
  members : List (String × Nat) := []
  roles : List (String × Nat) := []
  channels : List (String × Nat) := []
  attachments : List (String × Nat) := []
  deriving Repr, DecidableEq

/-- The resolver's state after construction: the flat active-option list and
the resolved maps. -/
structure OptionResolver where
  focusedOptions : List RawOption := []
  resolved : Option ResolvedData := none
  deriving Repr

/-- Build the resolver from the raw options and resolved maps, as the
constructor does via `resolveFocusedOptions`. -/
def mkOptionResolver (options : Option (List RawOption))
    (resolved : Option ResolvedData) : OptionResolver :=
  { focusedOptions := (resolveFocusedOptions options).options
    resolved := resolved }

/-- Source `extractOption`: find the option by name in the flat list; when absent,
throw a required-option error if `required`, else yield nothing; when present
with a different declared type, throw a type-mismatch error naming both
types; otherwise yield the option. -/
def extractOption (r : OptionResolver) (name : String) (t : Nat)
    (required : Bool) : Except String (Option RawOption) :=
  match r.focusedOptions.find? (fun candidate => candidate.name = name) with
  | none =>
    if required then
      .error ("Required " ++ OPTION_TYPE_LABEL t ++ " option \"" ++ name ++
        "\" is missing")
    else .ok none
  | some option =>
    if option.otype ≠ t then
      .error ("Option \"" ++ name ++ "\" is a " ++
        OPTION_TYPE_LABEL option.otype ++ ", expected " ++ OPTION_TYPE_LABEL t)
    else .ok (some option)

/-- Source `getString`: extract a type-3 option and return its value. -/
def getString (r : OptionResolver) (name : String) (required : Bool := false) :
    Except String (Option OptValue) :=
  match extractOption r name 3 required with
  | .error e => .error e
  | .ok none => .ok none
  | .ok (some option) => .ok option.value

/-- Source `getInteger`: extract a type-4 option and return its value. -/
def getInteger (r : OptionResolver) (name : String) (required : Bool := false) :
    Except String (Option OptValue) :=
  match extractOption r name 4 required with
  | .error e => .error e
  | .ok none => .ok none
  | .ok (some option) => .ok option.value

/-- Source `getNumber`: extract a type-10 option and return its value. -/
def getNumber (r : OptionResolver) (name : String) (required : Bool := false) :
    Except String (Option OptValue) :=
  match extractOption r name 10 required with
  | .error e => .error e
  | .ok none => .ok none
  | .ok (some option) => .ok option.value

/-- Source `getBoolean`: extract a type-5 option and return its value. -/
def getBoolean (r : OptionResolver) (name : String) (required : Bool := false) :
    Except String (Option OptValue) :=
  match extractOption r name 5 required with
  | .error e => .error e
  | .ok none => .ok none
  | .ok (some option) => .ok option.value

/-- A resolved user option: the user surrogate plus the optional member
surrogate. -/
structure ResolvedUserOption where
  user : Nat
  member : Option Nat := none
  deriving Repr, DecidableEq

/-- Source `resolveUser`: look the id up in `resolved.users`, attaching the member
record when present. -/
def resolveUser (r : OptionResolver) (id : String) : Option ResolvedUserOption :=
  match (r.resolved.bind (fun rd => mapGet rd.users id)) with
  | none => none
  | some u => some { user := u, member := r.resolved.bind (fun rd => mapGet rd.members id) }

/-- Source `getUser`: extract a type-6 option, then resolve its id against the
resolved user map; a missing resolution is an error only when required. -/
def getUser (r : OptionResolver) (name : String) (required : Bool := false) :
    Except String (Option ResolvedUserOption) :=
  match extractOption r name 6 required with
  | .error e => .error e
  | .ok none => .ok none
  | .ok (some option) =>
    match resolveUser r ((option.value.map OptValue.asId).getD "") with
    | none =>
      if required then
        .error ("Resolved data for user option \"" ++ name ++ "\" is missing")
      else .ok none
    | some resolvedUser => .ok (some resolvedUser)

/-- Source `getRole`: extract a type-8 option, then resolve its id against the
resolved role map; a missing resolution is an error only when required. -/
def getRole (r : OptionResolver) (name : String) (required : Bool := false) :
    Except String (Option Nat) :=
  match extractOption r name 8 required with
  | .error e => .error e
  | .ok none => .ok none
  | .ok (some option) =>
    match (r.resolved.bind (fun rd =>
        mapGet rd.roles ((option.value.map OptValue.asId).getD ""))) with
    | none =>
      if required then
        .error ("Resolved data for role option \"" ++ name ++ "\" is missing")
      else .ok none
    | some role => .ok (some role)

/-- Source `getChannel`: extract a type-7 option, then resolve its id against the
resolved channel map. -/
def getChannel (r : OptionResolver) (name : String) (required : Bool := false) :
    Except String (Option Nat) :=
  match extractOption r name 7 required with
  | .error e => .error e
  | .ok none => .ok none
  | .ok (some option) =>
    match (r.resolved.bind (fun rd =>
        mapGet rd.channels ((option.value.map OptValue.asId).getD ""))) with
    | none =>
      if required then
        .error ("Resolved data for channel option \"" ++ name ++ "\" is missing")
      else .ok none
    | some channel => .ok (some channel)

/-- Source `getAttachment`: extract a type-11 option, then resolve its id against
the resolved attachment map. -/
def getAttachment (r : OptionResolver) (name : String) (required : Bool := false) :
    Except String (Option Nat) :=
  match extractOption r name 11 required with
  | .error e => .error e
  | .ok none => .ok none
  | .ok (some option) =>
    match (r.resolved.bind (fun rd =>
        mapGet rd.attachments ((option.value.map OptValue.asId).getD ""))) with
    | none =>
      if required then
        .error ("Resolved data for attachment option \"" ++ name ++ "\" is missing")
      else .ok none
    | some attachment => .ok (some attachment)

/-- A resolved mentionable option: a role or a user. -/
inductive MentionableOption where
  | role (value : Nat) : MentionableOption
  | user (value : ResolvedUserOption) : MentionableOption
  deriving Repr, DecidableEq

/-- Source `getMentionable`: extract a type-9 option; try role resolution first,
then user resolution; a doubly-missing resolution is an error only when
required. -/
def getMentionable (r : OptionResolver) (name : String)
    (required : Bool := false) : Except String (Option MentionableOption) :=
  match extractOption r name 9 required with
  | .error e => .error e
  | .ok none => .ok none
  | .ok (some option) =>
    let id := (option.value.map OptValue.asId).getD ""
    match (r.resolved.bind (fun rd => mapGet rd.roles id)) with
    | some role => .ok (some (.role role))
    | none =>
      match resolveUser r id with
      | some u => .ok (some (.user u))
      | none =>
        if required then
          .error ("Resolved data for mentionable option \"" ++ name ++
            "\" is missing")
        else .ok none

/-! ## Component-module auto-discovery routing (`importComponentModule`,
`useComponent`, `useModal`, `src/clients/MiniInteraction.ts`)

`importComponentModule` gathers export-shape candidates, decides from the
absolute path whether the file lives under a `modals` directory, and walks
the candidates: invalid entries are skipped with a warning; valid
`{customId, handler}` pairs are registered via `useModal` when the file is a
modal file, and collected for `useComponent` registration otherwise. Any
exception (such as `useModal` rejecting an empty custom id) is caught and
the function yields no components, keeping registrations already made. -/

/-- Does `needle` occur as a contiguous run at the head of `haystack`? -/
def charsStartWith : List Char → List Char → Bool
  | [], _ => true
  | _ :: _, [] => false
  | p :: ps, c :: cs => p = c && charsStartWith ps cs

/-- Does `needle` occur as a contiguous run anywhere in `haystack`? -/
def charsContain (needle : List Char) : List Char → Bool
  | [] => charsStartWith needle []
  | c :: cs => charsStartWith needle (c :: cs) || charsContain needle cs

/-- Source `absolutePath.includes(path.sep + "modals" + path.sep) ||
absolutePath.includes("/modals/")` with the posix separator. -/
def isModalFilePath (absolutePath : String) : Bool :=
  charsContain "/modals/".toList absolutePath.toList

/-- One export-shape candidate found in an imported module: whether it is an
object, and its `customId` / `handler` fields (`none` models an absent or
wrongly-typed field; handlers are numeric surrogates). -/
structure ComponentCandidate where
  isObject : Bool := true
  customId : Option String := none
  handler : Option Nat := none
  deriving Repr, DecidableEq

/-- The client's component and modal registries. -/
structure HandlerRegistry where
  componentHandlers : List (String × Nat) := []
  modalHandlers : List (String × Nat) := []
  deriving Repr, DecidableEq

/-- Source `useModal` (validation): requires a truthy custom id and a handler
function, then registers into the modal map via `Map.set`. -/
def useModal (reg : HandlerRegistry) (customId : String) (handler : Nat) :
    Except String HandlerRegistry :=
  if customId = "" then
    .error "[MiniInteraction] modal.customId is required"
  else
    .ok { reg with modalHandlers := mapSet reg.modalHandlers customId handler }

/-- Source `useComponent` (validation): requires a truthy custom id and a handler
function, then registers into the component map via `Map.set`. -/
def useComponent (reg : HandlerRegistry) (customId : String) (handler : Nat) :
    Except String HandlerRegistry :=
  if customId = "" then
    .error "[MiniInteraction] component.customId is required"
  else
    .ok { reg with componentHandlers := mapSet reg.componentHandlers customId handler }

/-- The candidate-walking loop of `importComponentModule`: skips invalid
candidates, registers valid ones as modals when `isModalFile`, collects them
otherwise; the final flag records whether `useModal` threw (caught by the
surrounding try/catch). -/
def processComponentCandidates (isModalFile : Bool) (reg : HandlerRegistry)
    (acc : List (String × Nat)) :
    List ComponentCandidate → HandlerRegistry × List (String × Nat) × Bool
  | [] => (reg, acc, false)
  | c :: rest =>
    if !c.isObject then processComponentCandidates isModalFile reg acc rest
    else
      match c.customId with
      | none => processComponentCandidates isModalFile reg acc rest
      | some cid =>
        match c.handler with
        | none => processComponentCandidates isModalFile reg acc rest
        | some handler =>
          if isModalFile then
            match useModal reg cid handler with
            | .error _ => (reg, acc, true)
            | .ok reg2 => processComponentCandidates isModalFile reg2 acc rest
          else
            processComponentCandidates isModalFile reg (acc ++ [(cid, handler)]) rest

/-- Source `importComponentModule`: route valid candidates of a file to the modal
map (when the path has a `modals` segment) or to the returned component
list; an exception yields no components but keeps prior registrations. -/
def importComponentModule (absolutePath : String)
    (candidates : List ComponentCandidate) (reg : HandlerRegistry) :
    HandlerRegistry × List (String × Nat) :=
  let isModalFile := isModalFilePath absolutePath
  let (reg2, components, threw) :=
    processComponentCandidates isModalFile reg [] candidates
  if threw then (reg2, []) else (reg2, components)

/-! ## Context-menu target resolution (`resolveTargetUser`,
`resolveTargetMessage`, `src/utils/ContextMenuInteraction.ts`) -/

/-- The resolved entity maps of a context-menu interaction (entity objects
abstracted by numeric surrogates). -/
structure ContextResolved where
  users : List (String × Nat) := []
  messages : List (String × Nat) := []
  deriving Repr, DecidableEq

/-- The `data` of a context-menu command interaction. -/
structure ContextMenuData where
  target_id : Option String := none
  resolved : Option ContextResolved := none
  deriving Repr, DecidableEq

/-- A context-menu command interaction (only the fields the target lookup
reads). -/
structure ContextMenuInteraction where
  idata : Option ContextMenuData := none
  deriving Repr, DecidableEq

/-- Source `resolveTargetUser`: a falsy `data?.target_id` yields `undefined`;
otherwise the optional chain `data?.resolved?.users?.[targetId]`. -/
def resolveTargetUser (interaction : ContextMenuInteraction) : Option Nat :=
  match interaction.idata.bind (fun d => d.target_id) with
  | none => none
  | some targetId =>
    if targetId = "" then none
    else
      interaction.idata.bind (fun d =>
        d.resolved.bind (fun r => mapGet r.users targetId))

/-- Source `resolveTargetMessage`: a falsy `data?.target_id` yields `undefined`;
otherwise the optional chain `data?.resolved?.messages?.[targetId]`. -/
def resolveTargetMessage (interaction : ContextMenuInteraction) : Option Nat :=
  match interaction.idata.bind (fun d => d.target_id) with
  | none => none
  | some targetId =>
    if targetId = "" then none
    else
      interaction.idata.bind (fun d =>
        d.resolved.bind (fun r => mapGet r.messages targetId))

/-- Source `createUserContextMenuInteraction` assigns
`targetUser := resolveTargetUser(interaction)`; wrapping always succeeds and
the field is this total lookup's result. -/
def wrappedTargetUser (interaction : ContextMenuInteraction) : Option Nat :=
  resolveTargetUser interaction

/-- Source `createMessageContextMenuInteraction` assigns
`targetMessage := resolveTargetMessage(interaction)`. -/
def wrappedTargetMessage (interaction : ContextMenuInteraction) : Option Nat :=
  resolveTargetMessage interaction

/-! ## Claim theorems -/

mutual

/-- Containment of a rich-layout component at arbitrary depth, stated from
the claim's words for comparison with the source detector: a component
counts if its own type is in the v2 family or any member of any `components`
children array (recursively, through builders) counts. -/
def specDeepContainsV2 : List ComponentLike → Bool
  | [] => false
  | c :: rest => specComponentDeepV2 c || specDeepContainsV2 rest

/-- Per-component deep containment following the claim's words. -/
def specComponentDeepV2 : ComponentLike → Bool
  | .nonObject => false
  | .builder payload => specComponentDeepV2 payload
  | .obj t ch =>
    (match t with
     | some ty => COMPONENTS_V2_TYPES.contains ty
     | none => false) ||
    (match ch with
     | some l => specDeepContainsV2 l
     | none => false)

end

/-- C4: `normaliseMessageFlags` is the identity on `undefined` and on a
single flag value, reduces an array of flags by bitwise OR
(`normaliseMessageFlags [A, B] = A ||| B`), and maps the empty array to
`undefined` rather than 0. -/
theorem normaliseMessageFlags_flags_law :
    normaliseMessageFlags none = none ∧
    (∀ f : Nat, normaliseMessageFlags (some (.single f)) = some f) ∧
    (∀ A B : Nat, normaliseMessageFlags (some (.many [A, B])) = some (A ||| B)) ∧
    normaliseMessageFlags (some (.many [])) = none := by
  refine ⟨rfl, fun f => rfl, fun A B => ?_, rfl⟩
  simp [normaliseMessageFlags]

/-- C4 witness: the OR-reduction law at Ephemeral 64 and IsComponentsV2
32768. -/
theorem normaliseMessageFlags_flags_law_witness :
    normaliseMessageFlags (some (.many [64, 32768])) = some (64 ||| 32768) :=
  normaliseMessageFlags_flags_law.2.2.1 64 32768

/-- C5 counterexample: a payload whose components contain a rich-layout
component (Separator 14) at depth two under a Button-typed (2) object
satisfies deep containment as the claim states it, yet
`normaliseInteractionMessageData` leaves the flags unset, because the
detector recurses only through action-row children. -/
theorem componentsV2_any_depth_counterexample :
    specDeepContainsV2 [.obj (some 2) (some [.obj (some 14) none])] = true ∧
    normaliseInteractionMessageData
        (some { components := some [.obj (some 2) (some [.obj (some 14) none])] }) =
      some { components := some [.obj (some 2) (some [.obj (some 14) none])]
             flags := none } :=
  ⟨rfl, rfl⟩

/-- C5 (amended): whenever the components array, after builder conversion,
contains a rich-layout component at the top level or nested transitively
through action-row children, the normalised payload carries flags with the
IsComponentsV2 bit set, even when the caller supplied no flags. -/
theorem normalise_sets_componentsV2_flag (data : MessageData)
    (cs : List ComponentLike)
    (hcs : data.components = some cs)
    (hv2 : containsComponentsV2 (cs.map resolveComponentLike) = true) :
    normaliseInteractionMessageData (some data) =
      some { content := data.content
             components := some (cs.map resolveComponentLike)
             embeds := data.embeds.map (List.map resolveComponentLike)
             flags := some ((normaliseMessageFlags data.flags).getD 0 |||
               IsComponentsV2) } ∧
    (((normaliseMessageFlags data.flags).getD 0 ||| IsComponentsV2).testBit 15
      = true) := by
  constructor
  · simp [normaliseInteractionMessageData, hcs, hv2]
  · have h32 : Nat.testBit IsComponentsV2 15 = true := by decide
    rw [Nat.testBit_lor, h32, Bool.or_true]

/-- C5 witness: a Thumbnail (11) nested in an action row sets the bit with
no caller flags. -/
theorem normalise_sets_componentsV2_flag_witness :
    normaliseInteractionMessageData
        (some { components := some [.obj (some 1) (some [.obj (some 11) none])] }) =
      some { components := some [.obj (some 1) (some [.obj (some 11) none])]
             flags := some (0 ||| IsComponentsV2) } ∧
    ((0 : Nat) ||| IsComponentsV2).testBit 15 = true := by
  have h := normalise_sets_componentsV2_flag
    { components := some [.obj (some 1) (some [.obj (some 11) none])] }
    [.obj (some 1) (some [.obj (some 11) none])] rfl (by decide)
  exact h

/-- C1: for every request with a missing signature or timestamp header, or
whose signature verification returns false, `handleRequest` returns status
401, does not hand the body to `JSON.parse`, and invokes no registered
command, component, or modal handler. -/
theorem handleRequest_auth_failure_rejects_early
    (verify : String → String → String → String → Bool)
    (parse : String → Option Interaction) (client : Client)
    (request : MiniRequest)
    (h : request.signature = none ∨ request.timestamp = none ∨
      (∃ s t, request.signature = some s ∧ request.timestamp = some t ∧
        verify request.body s t client.publicKey = false)) :
    (handleRequest verify parse client request).1.status = 401 ∧
    (handleRequest verify parse client request).2.parsed = false ∧
    (handleRequest verify parse client request).2.handlerCalls = 0 := by
  rcases h with h | h | ⟨s, t, hs, ht, hv⟩
  · simp [handleRequest, headerMissing, h]
  · simp [handleRequest, headerMissing, h]
  · by_cases hm : (headerMissing request.signature || headerMissing request.timestamp) = true
    · simp [handleRequest, hm]
    · have hms : headerMissing request.signature = false := by
        cases hb : headerMissing request.signature <;> simp_all
      have hmt : headerMissing request.timestamp = false := by
        cases hb : headerMissing request.timestamp <;> simp_all
      simp [handleRequest, hms, hmt, hs, ht, hv]
      split <;> exact ⟨rfl, rfl, rfl⟩

/-- C1 witness: a signed request whose verification fails is rejected with
401 before parsing and before any handler runs. -/
theorem handleRequest_auth_failure_rejects_early_witness :
    (handleRequest (fun _ _ _ _ => false) (fun _ => none) {}
      { body := "x", signature := some "sig", timestamp := some "ts" }).1.status = 401 ∧
    (handleRequest (fun _ _ _ _ => false) (fun _ => none) {}
      { body := "x", signature := some "sig", timestamp := some "ts" }).2.parsed = false ∧
    (handleRequest (fun _ _ _ _ => false) (fun _ => none) {}
      { body := "x", signature := some "sig", timestamp := some "ts" }).2.handlerCalls = 0 :=
  handleRequest_auth_failure_rejects_early _ _ _ _
    (Or.inr (Or.inr (Exists.intro "sig" (Exists.intro "ts" (And.intro rfl (And.intro rfl rfl))))))

/-- C7: a registered command, component, or modal whose handler finishes
without throwing, returns no envelope, and captures none through the helper
methods yields a 500 result whose error message names the command name or
custom id. -/
theorem handler_without_envelope_yields_500 (client : Client) (i : Interaction) :
    (forall d n, i.idata = some d → d.name = some n → n ≠ "" →
      mapGet client.commands n = some (.finished none none) →
      handleApplicationCommand client i =
        (⟨500, .errorText ("[MiniInteraction] Command \"" ++ n ++
          "\" did not return a response. Call interaction.reply(), interaction.deferReply(), interaction.showModal(), or return an APIInteractionResponse.")⟩, 1)) ∧
    (forall d c, i.idata = some d → d.custom_id = some c → c ≠ "" →
      mapGet client.componentHandlers c = some (.finished none none) →
      handleMessageComponent client i =
        (⟨500, .errorText ("[MiniInteraction] Component \"" ++ c ++
          "\" did not return a response. Return an APIInteractionResponse to acknowledge the interaction.")⟩, 1)) ∧
    (forall d c, i.idata = some d → d.custom_id = some c → c ≠ "" →
      mapGet client.modalHandlers c = some (.finished none none) →
      handleModalSubmit client i =
        (⟨500, .errorText ("[MiniInteraction] Modal \"" ++ c ++
          "\" did not return a response. Return an APIInteractionResponse to acknowledge the interaction.")⟩, 1)) := by
  refine ⟨?_, ?_, ?_⟩
  · intro d n hd hn hne hmap
    simp [handleApplicationCommand, hd, hn, hne, hmap, Option.orElse]
  · intro d c hd hc hne hmap
    simp [handleMessageComponent, hd, hc, hne, hmap, Option.orElse]
  · intro d c hd hc hne hmap
    simp [handleModalSubmit, hd, hc, hne, hmap, Option.orElse]

/-- C7 witness: a command named ping, a component and a modal with custom id
press, all finishing without an envelope, each produce the named 500
error. -/
theorem handler_without_envelope_yields_500_witness :
    handleApplicationCommand
        { commands := [("ping", .finished none none)] }
        { interactionType := 2, idata := some { name := some "ping" } } =
      (⟨500, .errorText ("[MiniInteraction] Command \"ping\" did not return a response. Call interaction.reply(), interaction.deferReply(), interaction.showModal(), or return an APIInteractionResponse.")⟩, 1) ∧
    handleMessageComponent
        { componentHandlers := [("press", .finished none none)] }
        { interactionType := 3, idata := some { custom_id := some "press" } } =
      (⟨500, .errorText ("[MiniInteraction] Component \"press\" did not return a response. Return an APIInteractionResponse to acknowledge the interaction.")⟩, 1) ∧
    handleModalSubmit
        { modalHandlers := [("form", .finished none none)] }
        { interactionType := 5, idata := some { custom_id := some "form" } } =
      (⟨500, .errorText ("[MiniInteraction] Modal \"form\" did not return a response. Return an APIInteractionResponse to acknowledge the interaction.")⟩, 1) := by
  refine ⟨?_, ?_, ?_⟩
  · exact (handler_without_envelope_yields_500
      { commands := [("ping", .finished none none)] }
      { interactionType := 2, idata := some { name := some "ping" } }).1
      _ _ rfl rfl (by decide) rfl
  · exact (handler_without_envelope_yields_500
      { componentHandlers := [("press", .finished none none)] }
      { interactionType := 3, idata := some { custom_id := some "press" } }).2.1
      _ _ rfl rfl (by decide) rfl
  · exact (handler_without_envelope_yields_500
      { modalHandlers := [("form", .finished none none)] }
      { interactionType := 5, idata := some { custom_id := some "form" } }).2.2
      _ _ rfl rfl (by decide) rfl

/-- C10: context-menu target lookup is total: a missing `target_id` or an id
absent from the resolved users (respectively messages) map makes the wrapped
`targetUser` (respectively `targetMessage`) undefined instead of raising. -/
theorem contextMenu_target_lookup_total (i : ContextMenuInteraction) :
    ((i.idata.bind (fun d => d.target_id) = none ∨
      (∃ tid, i.idata.bind (fun d => d.target_id) = some tid ∧
        i.idata.bind (fun d => d.resolved.bind (fun r => mapGet r.users tid)) = none)) →
      wrappedTargetUser i = none) ∧
    ((i.idata.bind (fun d => d.target_id) = none ∨
      (∃ tid, i.idata.bind (fun d => d.target_id) = some tid ∧
        i.idata.bind (fun d => d.resolved.bind (fun r => mapGet r.messages tid)) = none)) →
      wrappedTargetMessage i = none) := by
  constructor
  · rintro (h | ⟨tid, htid, hnone⟩)
    · simp [wrappedTargetUser, resolveTargetUser, h]
    · unfold wrappedTargetUser resolveTargetUser
      rw [htid]
      by_cases he : tid = ""
      · simp [he]
      · simp [he, hnone]
  · rintro (h | ⟨tid, htid, hnone⟩)
    · simp [wrappedTargetMessage, resolveTargetMessage, h]
    · unfold wrappedTargetMessage resolveTargetMessage
      rw [htid]
      by_cases he : tid = ""
      · simp [he, hnone]
      · simp [he, hnone]

/-- C10 witness: a user target id absent from the resolved users map yields
an undefined target user; a missing target id yields an undefined target
message. -/
theorem contextMenu_target_lookup_total_witness :
    wrappedTargetUser
      { idata := some { target_id := some "42"
                        resolved := some { users := [("7", 1)] } } } = none ∧
    wrappedTargetMessage { idata := some { target_id := none } } = none := by
  constructor
  · exact (contextMenu_target_lookup_total
      { idata := some { target_id := some "42"
                        resolved := some { users := [("7", 1)] } } }).1
      (Or.inr (Exists.intro "42" (And.intro rfl (by decide))))
  · exact (contextMenu_target_lookup_total
      { idata := some { target_id := none } }).2 (Or.inl rfl)


/-- Acknowledging never changes the captured slot of a component session. -/
theorem ackIfComponent_captured (h : ComponentHelpers) (r : Envelope)
    (s : ComponentSession) : (ackIfComponent h r s).captured = s.captured := by
  unfold ackIfComponent
  split <;> rfl

/-- Acknowledging never changes the captured slot of a command session. -/
theorem ackIfCommand_captured (h : CommandHelpers) (r : Envelope)
    (s : CommandSession) : (ackIfCommand h r s).captured = s.captured := by
  unfold ackIfCommand
  split <;> rfl

/-- Acknowledging never changes the deferred bit of a command session. -/
theorem ackIfCommand_isDeferred (h : CommandHelpers) (r : Envelope)
    (s : CommandSession) : (ackIfCommand h r s).isDeferred = s.isDeferred := by
  unfold ackIfCommand
  split <;> rfl

/-- Acknowledging never changes the follow-up log of a command session. -/
theorem ackIfCommand_followUps (h : CommandHelpers) (r : Envelope)
    (s : CommandSession) : (ackIfCommand h r s).followUps = s.followUps := by
  unfold ackIfCommand
  split <;> rfl

/-- C2 counterexample: with the dispatcher wiring (wrapper built with no
helpers), a second reply on a non-deferred component session is not a usage
error: the call succeeds and silently overwrites the captured envelope with
the new one. -/
theorem second_reply_overwrites_counterexample :
    componentReply dispatchComponentHelpers {} (some { content := some "first" }) =
      .ok (Envelope.channelMessage { content := some "first" },
        { captured := some (Envelope.channelMessage { content := some "first" }) }) ∧
    componentReply dispatchComponentHelpers
        { captured := some (Envelope.channelMessage { content := some "first" }) }
        (some { content := some "second" }) =
      .ok (Envelope.channelMessage { content := some "second" },
        { captured := some (Envelope.channelMessage { content := some "second" }) }) :=
  ⟨rfl, rfl⟩

/-- C2 (amended): the captured-response slot holds at most one envelope at a
time, but a second response attempted through `reply` while the session is
not deferred is not signaled as an error: for any session state, the call
succeeds and the slot afterwards holds exactly the new envelope, the
previous one being silently overwritten. -/
theorem componentReply_not_deferred_overwrites (h : ComponentHelpers)
    (s : ComponentSession) (data : Option MessageData) (nd : CallbackData)
    (hdef : s.isDeferred = false)
    (hnd : normaliseInteractionMessageData data = some nd) :
    ∃ s2, componentReply h s data = .ok (Envelope.channelMessage nd, s2) ∧
      s2.captured = some (Envelope.channelMessage nd) := by
  refine ⟨ackIfComponent h (Envelope.channelMessage nd)
    { s with captured := some (Envelope.channelMessage nd) }, ?_, ?_⟩
  · simp [componentReply, hnd, hdef]
  · rw [ackIfComponent_captured]

/-- C2 witness: a session that already captured a first envelope accepts a
second reply and ends up holding only the second envelope. -/
theorem componentReply_not_deferred_overwrites_witness :
    ∃ s2, componentReply dispatchComponentHelpers
        { captured := some (Envelope.channelMessage { content := some "first" }) }
        (some { content := some "second" }) =
      .ok (Envelope.channelMessage { content := some "second" }, s2) ∧
      s2.captured = some (Envelope.channelMessage { content := some "second" }) :=
  componentReply_not_deferred_overwrites _ _ _ _ rfl rfl

/-- C3 counterexample: in the dispatcher wiring the command wrapper receives
no follow-up sender, so after `deferReply()` an `editReply` with content
overwrites the captured DeferredChannelMessage envelope with a
ChannelMessage envelope and nothing is delivered out of band (the follow-up
log stays empty). -/
theorem defer_then_edit_overwrites_counterexample :
    commandDeferReply dispatchCommandHelpers {} none =
      .ok (Envelope.deferredChannelMessage none,
        { captured := some (Envelope.deferredChannelMessage none)
          isDeferred := true }) ∧
    commandEditReply dispatchCommandHelpers
        { captured := some (Envelope.deferredChannelMessage none)
          isDeferred := true }
        (some { content := some "y" }) =
      .ok (Envelope.channelMessage { content := some "y" },
        { captured := some (Envelope.channelMessage { content := some "y" })
          isDeferred := true
          hasResponded := true }) :=
  ⟨rfl, rfl⟩

/-- C3 (amended): when a follow-up sender is supplied to the command
wrapper, a handler that calls `deferReply()` and later `editReply` with
message data leaves the DeferredChannelMessage envelope as the captured
initial response and the edit is delivered through the follow-up channel
targeting the original message; in the default dispatcher wiring no sender
is supplied and `editReply` instead overwrites the captured envelope (see
the counterexample). -/
theorem commandDefer_then_edit_routes_followUp (h : CommandHelpers)
    (s : CommandSession) (data : Option MessageData) (nd : CallbackData)
    (hcr : h.canRespond ≠ some false)
    (hsf : h.hasSendFollowUp = true)
    (hnd : normaliseInteractionMessageData data = some nd) :
    ∃ s1 s2,
      commandDeferReply h s none =
        .ok (Envelope.deferredChannelMessage none, s1) ∧
      s1.captured = some (Envelope.deferredChannelMessage none) ∧
      commandEditReply h s1 data = .ok (Envelope.channelMessage nd, s2) ∧
      s2.captured = some (Envelope.deferredChannelMessage none) ∧
      s2.followUps = s1.followUps ++ [("@original", Envelope.channelMessage nd)] := by
  refine ⟨ackIfCommand h (Envelope.deferredChannelMessage none)
      { s with captured := some (Envelope.deferredChannelMessage none)
               isDeferred := true }, ?_⟩
  set s1 := ackIfCommand h (Envelope.deferredChannelMessage none)
      { s with captured := some (Envelope.deferredChannelMessage none)
               isDeferred := true } with hs1def
  have hcap : s1.captured = some (Envelope.deferredChannelMessage none) := by
    rw [hs1def, ackIfCommand_captured]
  have hdef : s1.isDeferred = true := by
    rw [hs1def, ackIfCommand_isDeferred]
  refine ⟨{ s1 with
      followUps := s1.followUps ++ [("@original", Envelope.channelMessage nd)]
      hasResponded := true }, ?_, hcap, ?_, hcap, rfl⟩
  · simp [commandDeferReply, hcr, hs1def]
  · simp [commandEditReply, hcr, hnd, hsf, hdef]

/-- C3 witness: with a follow-up sender configured, defer-then-edit keeps
the deferred envelope captured and logs the edit as an at-original
follow-up. -/
theorem commandDefer_then_edit_routes_followUp_witness :
    ∃ s1 s2,
      commandDeferReply { hasSendFollowUp := true } {} none =
        .ok (Envelope.deferredChannelMessage none, s1) ∧
      s1.captured = some (Envelope.deferredChannelMessage none) ∧
      commandEditReply { hasSendFollowUp := true } s1
          (some { content := some "y" }) =
        .ok (Envelope.channelMessage { content := some "y" }, s2) ∧
      s2.captured = some (Envelope.deferredChannelMessage none) ∧
      s2.followUps = s1.followUps ++
        [("@original", Envelope.channelMessage { content := some "y" })] :=
  commandDefer_then_edit_routes_followUp { hasSendFollowUp := true } {}
    (some { content := some "y" }) { content := some "y" }
    (by decide) rfl rfl


/-- Setting a key and then looking one up: the set key yields the new value,
any other key is unaffected. -/
theorem mapGet_mapSet (m : List (String × α)) (k k2 : String) (v : α) :
    mapGet (mapSet m k v) k2 = if k2 = k then some v else mapGet m k2 := by
  induction m with
  | nil =>
    rcases eq_or_ne k2 k with h | h
    · subst h
      simp [mapGet, mapSet]
    · simp [mapGet, mapSet, h, h.symm]
  | cons e rest ih =>
    by_cases he : e.1 = k
    · rcases eq_or_ne k2 k with h | h
      · subst h
        simp [mapGet, mapSet, he]
      · simp [mapGet, mapSet, he, h, h.symm]
    · rcases eq_or_ne k2 k with h | h
      · subst h
        simp [mapGet, mapSet, he, ih]
      · simp [mapGet, mapSet, he, h, ih]

/-- Keys after `Map.set`: unchanged when the key was present, the key
appended otherwise. -/
theorem mapSet_keys (m : List (String × α)) (k : String) (v : α) :
    (mapSet m k v).map Prod.fst =
      if k ∈ m.map Prod.fst then m.map Prod.fst
      else m.map Prod.fst ++ [k] := by
  induction m with
  | nil => simp [mapSet]
  | cons e rest ih =>
    by_cases he : e.1 = k
    · simp [mapSet, he]
    · have hk : k ≠ e.1 := fun h => he h.symm
      by_cases hmem : k ∈ rest.map Prod.fst
      · simp [mapSet, he, hmem, ih, hk]
      · simp [mapSet, he, hmem, ih, hk]

/-- `Map.set` preserves key distinctness. -/
theorem mapSet_keys_nodup (m : List (String × α)) (k : String) (v : α)
    (h : (m.map Prod.fst).Nodup) : ((mapSet m k v).map Prod.fst).Nodup := by
  rw [mapSet_keys]
  by_cases hmem : k ∈ m.map Prod.fst
  · simpa [hmem] using h
  · simp only [hmem, if_false]
    simp [List.nodup_append, h, hmem]

/-- Folding `Map.set` over discovered files preserves key distinctness. -/
theorem foldl_mapSet_keys_nodup (files : List (String × α))
    (m : List (String × α)) (h : (m.map Prod.fst).Nodup) :
    (((files.foldl (fun acc f => mapSet acc f.1 f.2) m)).map Prod.fst).Nodup := by
  induction files generalizing m with
  | nil => exact h
  | cons f rest ih => exact ih _ (mapSet_keys_nodup _ _ _ h)

/-- Folding `Map.set` over discovered files makes every file key present
(and preserves keys already present). -/
theorem foldl_mapSet_isSome (files : List (String × α))
    (m : List (String × α)) (k : String)
    (h : k ∈ files.map Prod.fst ∨ (mapGet m k).isSome = true) :
    (mapGet (files.foldl (fun acc f => mapSet acc f.1 f.2) m) k).isSome = true := by
  induction files generalizing m with
  | nil => simpa using h
  | cons f rest ih =>
    refine ih (mapSet m f.1 f.2) ?_
    rcases h with h | h
    · rw [List.map_cons] at h
      rcases List.mem_cons.mp h with h1 | h1
      · right
        rw [mapGet_mapSet, if_pos h1]
        rfl
      · exact Or.inl h1
    · right
      rw [mapGet_mapSet]
      split
      · rfl
      · exact h

/-- C6: the guarded auto-discovery entry point is idempotent and coalescing:
starting fresh, the first call starts exactly one directory load; after the
load completes, a repeat call is a no-op (skipped, state unchanged, still
one traversal), every discovered handler is registered with distinct keys
(exactly once); and a second call arriving while the first load is still in
flight joins the pending load rather than starting a second traversal. -/
theorem autoDiscovery_idempotent_and_coalesced (files : List (String × Nat)) :
    (∀ s : LoaderState, s.commandsLoaded = true →
      ensureCommandsLoadedStep true s = (s, .skipped)) ∧
    (ensureCommandsLoadedStep true
        (finishLoad files ((ensureCommandsLoadedStep true {}).1)) =
      (finishLoad files ((ensureCommandsLoadedStep true {}).1), .skipped)) ∧
    (finishLoad files ((ensureCommandsLoadedStep true {}).1)).traversals = 1 ∧
    (∀ p ∈ files,
      (mapGet (finishLoad files
        ((ensureCommandsLoadedStep true {}).1)).commands p.1).isSome = true) ∧
    ((finishLoad files
        ((ensureCommandsLoadedStep true {}).1)).commands.map Prod.fst).Nodup ∧
    ((ensureCommandsLoadedStep true ((ensureCommandsLoadedStep true {}).1)).2 =
      .joinedPending ∧
     ((ensureCommandsLoadedStep true
        ((ensureCommandsLoadedStep true {}).1)).1).traversals = 1) := by
  have hloaded : ∀ s : LoaderState, s.commandsLoaded = true →
      ensureCommandsLoadedStep true s = (s, .skipped) := by
    intro s hs
    simp [ensureCommandsLoadedStep, hs]
  refine ⟨hloaded, ?_, ?_, ?_, ?_, ?_, ?_⟩
  · exact hloaded _ rfl
  · rfl
  · intro p hp
    exact foldl_mapSet_isSome files [] p.1
      (Or.inl (List.mem_map_of_mem Prod.fst hp))
  · exact foldl_mapSet_keys_nodup files [] (by simp)
  · rfl
  · rfl

/-- C6 witness: with one discovered command, the post-load repeat call is
skipped with the state unchanged and the command is registered. -/
theorem autoDiscovery_idempotent_and_coalesced_witness :
    ensureCommandsLoadedStep true
        (finishLoad [("ping", 7)] ((ensureCommandsLoadedStep true {}).1)) =
      (finishLoad [("ping", 7)] ((ensureCommandsLoadedStep true {}).1), .skipped) ∧
    (mapGet (finishLoad [("ping", 7)]
      ((ensureCommandsLoadedStep true {}).1)).commands "ping").isSome = true :=
  ⟨(autoDiscovery_idempotent_and_coalesced [("ping", 7)]).2.1,
   (autoDiscovery_idempotent_and_coalesced [("ping", 7)]).2.2.2.1 ("ping", 7)
     (by simp)⟩


/-- Walking the candidates of a modal file with only valid candidates never
throws, collects no components, leaves the component map untouched, keeps
modal registrations already present, and registers every candidate's custom
id into the modal map. -/
theorem processComponentCandidates_modal_spec
    (cands : List ComponentCandidate) (reg : HandlerRegistry)
    (acc : List (String × Nat))
    (hvalid : ∀ c ∈ cands, c.isObject = true ∧
      ∃ id hd, c.customId = some id ∧ c.handler = some hd ∧ id ≠ "") :
    ∃ finalReg,
      processComponentCandidates true reg acc cands = (finalReg, acc, false) ∧
      finalReg.componentHandlers = reg.componentHandlers ∧
      (∀ k, (mapGet reg.modalHandlers k).isSome = true →
        (mapGet finalReg.modalHandlers k).isSome = true) ∧
      (∀ c ∈ cands, ∀ id, c.customId = some id →
        (mapGet finalReg.modalHandlers id).isSome = true) := by
  induction cands generalizing reg with
  | nil => exact ⟨reg, rfl, rfl, fun k hk => hk, by simp⟩
  | cons c rest ih =>
    obtain ⟨hobj, id, hd, hcid, hh, hne⟩ := hvalid c (List.mem_cons_self c rest)
    have hvalidRest : ∀ c2 ∈ rest, c2.isObject = true ∧
        ∃ id2 hd2, c2.customId = some id2 ∧ c2.handler = some hd2 ∧ id2 ≠ "" :=
      fun c2 hmem => hvalid c2 (List.mem_cons_of_mem c hmem)
    set reg2 : HandlerRegistry :=
      { reg with modalHandlers := mapSet reg.modalHandlers id hd } with hreg2
    obtain ⟨finalReg, hrun, hcomp, hmono, hall⟩ := ih reg2 hvalidRest
    refine ⟨finalReg, ?_, hcomp, ?_, ?_⟩
    · rw [processComponentCandidates, hobj, hcid, hh]
      simp only [Bool.not_true, Bool.false_eq_true, if_false]
      rw [useModal, if_neg hne]
      exact hrun
    · intro k hk
      refine hmono k ?_
      rw [hreg2]
      show (mapGet (mapSet reg.modalHandlers id hd) k).isSome = true
      rw [mapGet_mapSet]
      split
      · rfl
      · exact hk
    · intro c2 hmem id2 hcid2
      rcases List.mem_cons.mp hmem with h1 | h1
      · subst h1
        have : id2 = id := Option.some.inj (hcid2.symm.trans hcid)
        subst this
        refine hmono id2 ?_
        rw [hreg2]
        show (mapGet (mapSet reg.modalHandlers id2 hd) id2).isSome = true
        rw [mapGet_mapSet, if_pos rfl]
        rfl
      · exact hall c2 h1 id2 hcid2

/-- C9: a component file whose path contains a modals directory segment and
whose export candidates are valid custom-id/handler pairs registers every
candidate into the modal handler map; the component handler map is untouched
and the file contributes no component registrations, even though the export
shape matches the generic component pattern. -/
theorem modals_directory_routes_to_modal_map (absolutePath : String)
    (candidates : List ComponentCandidate) (reg : HandlerRegistry)
    (hpath : isModalFilePath absolutePath = true)
    (hvalid : ∀ c ∈ candidates, c.isObject = true ∧
      ∃ id hd, c.customId = some id ∧ c.handler = some hd ∧ id ≠ "") :
    (importComponentModule absolutePath candidates reg).2 = [] ∧
    (importComponentModule absolutePath candidates reg).1.componentHandlers =
      reg.componentHandlers ∧
    (∀ c ∈ candidates, ∀ id, c.customId = some id →
      (mapGet (importComponentModule absolutePath
        candidates reg).1.modalHandlers id).isSome = true) := by
  obtain ⟨finalReg, hrun, hcomp, _, hall⟩ :=
    processComponentCandidates_modal_spec candidates reg [] hvalid
  have himp : importComponentModule absolutePath candidates reg =
      (finalReg, []) := by
    unfold importComponentModule
    rw [hpath]
    show (match processComponentCandidates true reg [] candidates with
      | (reg2, components, threw) =>
        if threw = true then (reg2, []) else (reg2, components)) = (finalReg, [])
    rw [hrun]
    rfl
  rw [himp]
  exact ⟨rfl, hcomp, hall⟩

/-- C9 witness: a file under components/modals exporting the pair
(feedback, handler 7) lands in the modal map and produces no component
registrations. -/
theorem modals_directory_routes_to_modal_map_witness :
    (importComponentModule "src/components/modals/feedback.ts"
      [{ customId := some "feedback", handler := some 7 }] {}).2 = [] ∧
    (importComponentModule "src/components/modals/feedback.ts"
      [{ customId := some "feedback", handler := some 7 }] {}).1.componentHandlers
      = ([] : List (String × Nat)) ∧
    (mapGet (importComponentModule "src/components/modals/feedback.ts"
      [{ customId := some "feedback", handler := some 7 }] {}).1.modalHandlers
      "feedback").isSome = true := by
  obtain ⟨h1, h2, h3⟩ := modals_directory_routes_to_modal_map
    "src/components/modals/feedback.ts"
    [{ customId := some "feedback", handler := some 7 }] {} (by decide)
    (by intro c hmem
        rcases List.mem_singleton.mp hmem with rfl
        exact ⟨rfl, "feedback", 7, rfl, rfl, by decide⟩)
  exact ⟨h1, h2, h3 { customId := some "feedback", handler := some 7 }
    (List.mem_singleton_self _) "feedback" rfl⟩


/-- C8: every typed getter of the option resolver looks its name up in the
flat active-option list; an absent name with required true fails with a
required-option-missing error naming the option and the expected type; a
present option of a different declared type fails with a type-mismatch error
naming both types regardless of required; and a present option of the right
type yields its value, entity ids being resolved against the resolved maps
(role first, then user, for mentionables). -/
theorem option_resolver_typed_getters_spec (r : OptionResolver) (name : String) :
    (r.focusedOptions.find? (fun c => c.name = name) = none →
      (getString r name true =
        .error ("Required string option \"" ++ name ++ "\" is missing") ∧
       getInteger r name true =
        .error ("Required integer option \"" ++ name ++ "\" is missing") ∧
       getNumber r name true =
        .error ("Required number option \"" ++ name ++ "\" is missing") ∧
       getBoolean r name true =
        .error ("Required boolean option \"" ++ name ++ "\" is missing") ∧
       getUser r name true =
        .error ("Required user option \"" ++ name ++ "\" is missing") ∧
       getRole r name true =
        .error ("Required role option \"" ++ name ++ "\" is missing") ∧
       getChannel r name true =
        .error ("Required channel option \"" ++ name ++ "\" is missing") ∧
       getAttachment r name true =
        .error ("Required attachment option \"" ++ name ++ "\" is missing") ∧
       getMentionable r name true =
        .error ("Required mentionable option \"" ++ name ++ "\" is missing"))) ∧
    (∀ q : RawOption, ∀ required : Bool,
      r.focusedOptions.find? (fun c => c.name = name) = some q →
      ((q.otype ≠ 3 → getString r name required = .error ("Option \"" ++ name ++
          "\" is a " ++ OPTION_TYPE_LABEL q.otype ++ ", expected string")) ∧
       (q.otype ≠ 4 → getInteger r name required = .error ("Option \"" ++ name ++
          "\" is a " ++ OPTION_TYPE_LABEL q.otype ++ ", expected integer")) ∧
       (q.otype ≠ 10 → getNumber r name required = .error ("Option \"" ++ name ++
          "\" is a " ++ OPTION_TYPE_LABEL q.otype ++ ", expected number")) ∧
       (q.otype ≠ 5 → getBoolean r name required = .error ("Option \"" ++ name ++
          "\" is a " ++ OPTION_TYPE_LABEL q.otype ++ ", expected boolean")) ∧
       (q.otype ≠ 6 → getUser r name required = .error ("Option \"" ++ name ++
          "\" is a " ++ OPTION_TYPE_LABEL q.otype ++ ", expected user")) ∧
       (q.otype ≠ 8 → getRole r name required = .error ("Option \"" ++ name ++
          "\" is a " ++ OPTION_TYPE_LABEL q.otype ++ ", expected role")) ∧
       (q.otype ≠ 7 → getChannel r name required = .error ("Option \"" ++ name ++
          "\" is a " ++ OPTION_TYPE_LABEL q.otype ++ ", expected channel")) ∧
       (q.otype ≠ 11 → getAttachment r name required = .error ("Option \"" ++
          name ++ "\" is a " ++ OPTION_TYPE_LABEL q.otype ++
          ", expected attachment")) ∧
       (q.otype ≠ 9 → getMentionable r name required = .error ("Option \"" ++
          name ++ "\" is a " ++ OPTION_TYPE_LABEL q.otype ++
          ", expected mentionable")))) ∧
    (∀ q : RawOption, ∀ required : Bool,
      r.focusedOptions.find? (fun c => c.name = name) = some q →
      ((q.otype = 3 → getString r name required = .ok q.value) ∧
       (q.otype = 4 → getInteger r name required = .ok q.value) ∧
       (q.otype = 10 → getNumber r name required = .ok q.value) ∧
       (q.otype = 5 → getBoolean r name required = .ok q.value) ∧
       (∀ uid u, q.otype = 6 → q.value = some (.vid uid) →
         r.resolved.bind (fun rd => mapGet rd.users uid) = some u →
         getUser r name required =
           .ok (some { user := u
                       member := r.resolved.bind
                         (fun rd => mapGet rd.members uid) })) ∧
       (∀ rid role, q.otype = 8 → q.value = some (.vid rid) →
         r.resolved.bind (fun rd => mapGet rd.roles rid) = some role →
         getRole r name required = .ok (some role)) ∧
       (∀ chid chan, q.otype = 7 → q.value = some (.vid chid) →
         r.resolved.bind (fun rd => mapGet rd.channels chid) = some chan →
         getChannel r name required = .ok (some chan)) ∧
       (∀ aid att, q.otype = 11 → q.value = some (.vid aid) →
         r.resolved.bind (fun rd => mapGet rd.attachments aid) = some att →
         getAttachment r name required = .ok (some att)) ∧
       (∀ mid role, q.otype = 9 → q.value = some (.vid mid) →
         r.resolved.bind (fun rd => mapGet rd.roles mid) = some role →
         getMentionable r name required = .ok (some (.role role))) ∧
       (∀ mid u, q.otype = 9 → q.value = some (.vid mid) →
         r.resolved.bind (fun rd => mapGet rd.roles mid) = none →
         r.resolved.bind (fun rd => mapGet rd.users mid) = some u →
         getMentionable r name required =
           .ok (some (.user { user := u
                              member := r.resolved.bind
                                (fun rd => mapGet rd.members mid) }))))) := by
  refine ⟨?_, ?_, ?_⟩
  · intro hfind
    refine ⟨?_, ?_, ?_, ?_, ?_, ?_, ?_, ?_, ?_⟩ <;>
      simp [getString, getInteger, getNumber, getBoolean, getUser, getRole,
        getChannel, getAttachment, getMentionable, extractOption, hfind,
        OPTION_TYPE_LABEL]
  · intro q required hfind
    refine ⟨?_, ?_, ?_, ?_, ?_, ?_, ?_, ?_, ?_⟩ <;> intro hne <;>
      simp [getString, getInteger, getNumber, getBoolean, getUser, getRole,
        getChannel, getAttachment, getMentionable, extractOption, hfind, hne,
        OPTION_TYPE_LABEL, String.append_assoc]
  · intro q required hfind
    refine ⟨?_, ?_, ?_, ?_, ?_, ?_, ?_, ?_, ?_, ?_⟩
    · intro ht
      simp [getString, extractOption, hfind, ht]
    · intro ht
      simp [getInteger, extractOption, hfind, ht]
    · intro ht
      simp [getNumber, extractOption, hfind, ht]
    · intro ht
      simp [getBoolean, extractOption, hfind, ht]
    · intro uid u ht hval hres
      simp [getUser, extractOption, hfind, ht, hval, resolveUser, hres,
        OptValue.asId]
    · intro rid role ht hval hres
      simp [getRole, extractOption, hfind, ht, hval, hres, OptValue.asId]
    · intro chid chan ht hval hres
      simp [getChannel, extractOption, hfind, ht, hval, hres, OptValue.asId]
    · intro aid att ht hval hres
      simp [getAttachment, extractOption, hfind, ht, hval, hres, OptValue.asId]
    · intro mid role ht hval hres
      simp [getMentionable, extractOption, hfind, ht, hval, hres, OptValue.asId]
    · intro mid u ht hval hroles hres
      simp [getMentionable, extractOption, hfind, ht, hval, hroles,
        resolveUser, hres, OptValue.asId]

/-- C8 witness: the three getter behaviours at concrete resolvers — a
required string option missing from an empty list, an integer getter applied
to a string-typed option, a string value returned, and a user id resolved
against the resolved users map. -/
theorem option_resolver_typed_getters_spec_witness :
    getString { focusedOptions := [] } "level" true =
      .error ("Required string option \"level\" is missing") ∧
    getInteger { focusedOptions := [.mk "level" 3 (some (.vstr "high")) none] }
        "level" false =
      .error ("Option \"level\" is a string, expected integer") ∧
    getString { focusedOptions := [.mk "level" 3 (some (.vstr "high")) none] }
        "level" false = .ok (some (.vstr "high")) ∧
    getUser { focusedOptions := [.mk "who" 6 (some (.vid "42")) none]
              resolved := some { users := [("42", 5)], members := [("42", 9)] } }
        "who" false = .ok (some { user := 5, member := some 9 }) := by
  refine ⟨?_, ?_, ?_, ?_⟩
  · exact ((option_resolver_typed_getters_spec
      { focusedOptions := [] } "level").1 rfl).1
  · have h := ((option_resolver_typed_getters_spec
      { focusedOptions := [.mk "level" 3 (some (.vstr "high")) none] }
      "level").2.1 (.mk "level" 3 (some (.vstr "high")) none) false rfl).2.1
      (by decide)
    simpa [OPTION_TYPE_LABEL] using h
  · exact ((option_resolver_typed_getters_spec
      { focusedOptions := [.mk "level" 3 (some (.vstr "high")) none] }
      "level").2.2 (.mk "level" 3 (some (.vstr "high")) none) false rfl).1 rfl
  · exact ((option_resolver_typed_getters_spec
      { focusedOptions := [.mk "who" 6 (some (.vid "42")) none]
        resolved := some { users := [("42", 5)], members := [("42", 9)] } }
      "who").2.2 (.mk "who" 6 (some (.vid "42")) none) false rfl).2.2.2.2.1
      "42" 5 rfl rfl rfl


end Mini
